import Mathlib

/-!
Verification of the `test-slide-show` Google Slides embed widget.

The repository is a single Vue component in three near-duplicate revisions.
Two pure responsibilities are embedded here:

* the URL resolver (`extractPresentationId` and the derived `embedUrl`),
  identical in all three revisions, and
* the fullscreen controller, modelled per revision: namespace `P0` embeds the
  fullest revision (four body-style properties, standard and custom flags),
  `P1` the revision that only touches `overflow`, and `GS` the revision that
  has no standard-fullscreen flag at all.

Strings are handled through their character lists; the JavaScript regex
searches `url.match(/.../)` are embedded as an explicit leftmost scan with a
greedy character-class run, which is exactly the behaviour of the two concrete
patterns used by the code (a literal followed by `[a-zA-Z0-9-_]+`).
-/

/-- A character matched by the class `[a-zA-Z0-9-_]` in the two regexes. -/
def isIdChar (c : Char) : Bool :=
  c.isAlpha || c.isDigit || c == '-' || c == '_'

/-- Literal part of the published-presentation regex up to the capture run:
the pattern is `\/presentation\/d\/e\/(2PACX-[a-zA-Z0-9-_]+)`. -/
def pubLit : List Char := "/presentation/d/e/2PACX-".toList

/-- Prefix of the published capture group that is matched literally. -/
def pacxLit : List Char := "2PACX-".toList

/-- Literal part of the regular-presentation regex:
the pattern is `\/presentation\/d\/([a-zA-Z0-9-_]+)`. -/
def regLit : List Char := "/presentation/d/".toList

/-- Attempt to match `lit` followed by a nonempty greedy run of id characters
at the head of `cs`; on success return the capture, `keep ++ run`. -/
def matchAt (lit keep cs : List Char) : Option (List Char) :=
  if lit.isPrefixOf cs then
    if ((cs.drop lit.length).takeWhile isIdChar).isEmpty then none
    else some (keep ++ (cs.drop lit.length).takeWhile isIdChar)
  else none

/-- Leftmost search of the pattern over every suffix of `s`, as performed by
JavaScript `String.prototype.match` for an unanchored regex. -/
def scanMatch (lit keep : List Char) : List Char → Option (List Char)
  | [] => matchAt lit keep []
  | c :: cs =>
    match matchAt lit keep (c :: cs) with
    | some r => some r
    | none => scanMatch lit keep cs

/-- Result type of `extractPresentationId`: `{ id: string; isPublished: boolean }`. -/
structure PresentationReference where
  id : String
  isPublished : Bool
deriving DecidableEq

/-- Embedding of `extractPresentationId` from the component script: try the
published pattern first, then the regular pattern, else `null`. -/
def extractPresentationId (url : String) : Option PresentationReference :=
  match scanMatch pubLit pacxLit url.toList with
  | some cs => some ⟨String.mk cs, true⟩
  | none =>
    match scanMatch regLit [] url.toList with
    | some cs => some ⟨String.mk cs, false⟩
    | none => none

/-- Query string produced by the `URLSearchParams` construction in `embedUrl`. -/
def fixedQuery : String := "start=false&loop=false&delayms=3000"

/-- Embed URL built from a resolved reference (the non-null branch of the
`embedUrl` computed property). -/
def embedUrlCore (p : PresentationReference) : String :=
  if p.isPublished then
    "https://docs.google.com/presentation/d/e/" ++ p.id ++ "/embed?" ++ fixedQuery
  else
    "https://docs.google.com/presentation/d/" ++ p.id ++ "/embed?" ++ fixedQuery

/-- Embedding of the `embedUrl` computed property: empty string when the URL
does not resolve. -/
def embedUrl (url : String) : String :=
  match extractPresentationId url with
  | none => ""
  | some p => embedUrlCore p

/-- Console diagnostics emitted by the `embedUrl` computed property: the
invalid-URL case is logged (a recoverable error), never thrown. -/
def embedUrlLogs (url : String) : List String :=
  match extractPresentationId url with
  | none => ["Invalid Google Slides URL: " ++ url]
  | some _ => []

/-- What the template renders: an iframe when `embedUrl` is truthy (nonempty),
otherwise the inline error placeholder. -/
inductive Rendering where
  | frame (src : String) : Rendering
  | placeholder (text : String) : Rendering
deriving DecidableEq

/-- Embedding of the template's `v-if="embedUrl"` / `v-else` branch. -/
def render (url : String) : Rendering :=
  if embedUrl url = "" then Rendering.placeholder "Invalid Google Slides URL"
  else Rendering.frame (embedUrl url)

/-- Browser-visible side effects issued by the fullscreen controller. -/
inductive Effect where
  | exitFullscreenRequest : Effect
  | fullscreenRequest : Effect
  | scrollTo (x y : Nat) : Effect
  | dispatchResize : Effect
deriving DecidableEq

namespace P0

/-- Inline style properties of `document.body` that the fullest revision
mutates: `overflow`, `position`, `width`, `height`. -/
structure BodyStyle where
  overflow : String
  position : String
  width : String
  height : String
deriving DecidableEq

/-- Style written on entry to custom fullscreen. -/
def enterStyle : BodyStyle := ⟨"hidden", "fixed", "100%", "100%"⟩

/-- Style written on exit from custom fullscreen: every property is reset to
the empty string. -/
def blankStyle : BodyStyle := ⟨"", "", "", ""⟩

/-- Component state of the fullest revision: the two DOM refs (modelled by
presence flags), the two fullscreen flags and the body style. -/
structure State where
  containerPresent : Bool
  iframePresent : Bool
  isCustomFullscreen : Bool
  isStandardFullscreen : Bool
  bodyStyle : BodyStyle
deriving DecidableEq

/-- Derived `isFullscreen` computed property: standard OR custom. -/
def isFullscreen (s : State) : Bool :=
  s.isStandardFullscreen || s.isCustomFullscreen

/-- Accessible label of the toggle button, from the template's
`:aria-label="isFullscreen ? 'Exit fullscreen' : 'Enter fullscreen'"`. -/
def toggleLabel (s : State) : String :=
  if isFullscreen s then "Exit fullscreen" else "Enter fullscreen"

/-- Effects of `hideBrowserChrome`: scroll to (0,1), then after a delay back
to (0,0). -/
def hideBrowserChrome : List Effect :=
  [Effect.scrollTo 0 1, Effect.scrollTo 0 0]

/-- Embedding of `toggleCustomFullscreen`: guard on the container ref, flip
the custom flag, then either apply the viewport style and chrome-hiding
effects (entry) or reset every style property to empty (exit). -/
def toggleCustomFullscreen (s : State) : State × List Effect :=
  if !s.containerPresent then (s, [])
  else if !s.isCustomFullscreen then
    ({ s with isCustomFullscreen := true, bodyStyle := enterStyle },
      hideBrowserChrome ++ (if s.iframePresent then [Effect.dispatchResize] else []))
  else
    ({ s with isCustomFullscreen := false, bodyStyle := blankStyle }, [])

/-- Browser-reported facts consulted during a toggle: whether
`document.fullscreenElement` is set, whether `requestFullscreen` exists on the
container, and whether the request promise resolves. -/
structure Env where
  fullscreenElement : Bool
  requestFullscreenSupported : Bool
  requestFullscreenSucceeds : Bool
deriving DecidableEq

/-- Embedding of `toggleFullscreen`: guard on the container ref; exit the
platform API if the browser reports an active fullscreen element; otherwise
request platform fullscreen when supported, falling back to
`toggleCustomFullscreen` when the request rejects or the API is absent. -/
def toggleFullscreen (env : Env) (s : State) : State × List Effect :=
  if !s.containerPresent then (s, [])
  else if env.fullscreenElement then (s, [Effect.exitFullscreenRequest])
  else if env.requestFullscreenSupported then
    if env.requestFullscreenSucceeds then (s, [Effect.fullscreenRequest])
    else
      let r := toggleCustomFullscreen s
      (r.1, Effect.fullscreenRequest :: r.2)
  else toggleCustomFullscreen s

/-- Embedding of `handleFullscreenChange`: set the standard flag to the
browser-reported truth `!!document.fullscreenElement`. -/
def handleFullscreenChange (env : Env) (s : State) : State :=
  { s with isStandardFullscreen := env.fullscreenElement }

end P0

namespace P1

/-- Component state of the middle revision, which only mutates
`document.body.style.overflow`. -/
structure State where
  containerPresent : Bool
  iframePresent : Bool
  isCustomFullscreen : Bool
  isStandardFullscreen : Bool
  bodyOverflow : String
deriving DecidableEq

/-- Derived `isFullscreen` computed property of this revision. -/
def isFullscreen (s : State) : Bool :=
  s.isStandardFullscreen || s.isCustomFullscreen

/-- Embedding of this revision's `toggleCustomFullscreen`: guard, flip the
flag, set `overflow` to `hidden` on entry and back to empty on exit. -/
def toggleCustomFullscreen (s : State) : State × List Effect :=
  if !s.containerPresent then (s, [])
  else if !s.isCustomFullscreen then
    ({ s with isCustomFullscreen := true, bodyOverflow := "hidden" },
      if s.iframePresent then [Effect.dispatchResize] else [])
  else
    ({ s with isCustomFullscreen := false, bodyOverflow := "" }, [])

end P1

namespace GS

/-- Component state of the `GoogleSlides.vue` revision, which has no
standard-fullscreen flag and no event listeners. -/
structure State where
  containerPresent : Bool
  isCustomFullscreen : Bool
  bodyOverflow : String
deriving DecidableEq

/-- Embedding of this revision's synchronous `toggleCustomFullscreen`. -/
def toggleCustomFullscreen (s : State) : State :=
  if !s.containerPresent then s
  else if !s.isCustomFullscreen then
    { s with isCustomFullscreen := true, bodyOverflow := "hidden" }
  else
    { s with isCustomFullscreen := false, bodyOverflow := "" }

end GS

/-- Spec-side containment predicate, written from the spec's words: the
string contains the literal `lit` immediately followed by one or more
characters from `[a-zA-Z0-9-_]`. -/
def ContainsToken (lit : List Char) (s : String) : Prop :=
  ∃ pre tok post, s.toList = pre ++ lit ++ tok ++ post ∧ tok ≠ [] ∧
    ∀ c ∈ tok, isIdChar c = true

theorem matchAt_isSome_iff (lit keep cs : List Char) :
    (matchAt lit keep cs).isSome = true ↔
      ∃ tok post, cs = lit ++ tok ++ post ∧ tok ≠ [] ∧ ∀ c ∈ tok, isIdChar c = true := by
  by_cases hpre : lit.isPrefixOf cs = true
  · obtain ⟨rest, hrest⟩ := List.isPrefixOf_iff_prefix.mp hpre
    subst hrest
    rw [matchAt, if_pos hpre, List.drop_left]
    by_cases hrun : (rest.takeWhile isIdChar).isEmpty = true
    · rw [if_pos hrun]
      simp only [Option.isSome_none, Bool.false_eq_true, false_iff]
      rintro ⟨tok, post, heq, hne, hall⟩
      have hrp : rest = tok ++ post :=
        List.append_cancel_left (heq.trans (List.append_assoc lit tok post))
      cases tok with
      | nil => exact hne rfl
      | cons a t =>
        have ha : isIdChar a = true := hall a (List.mem_cons_self _ _)
        have hta : rest.takeWhile isIdChar = a :: ((t ++ post).takeWhile isIdChar) := by
          rw [hrp, List.cons_append, List.takeWhile_cons_of_pos ha]
        rw [hta] at hrun
        simp at hrun
    · rw [if_neg hrun]
      simp only [Option.isSome_some, true_iff]
      refine ⟨rest.takeWhile isIdChar, rest.dropWhile isIdChar, ?_, ?_, ?_⟩
      · rw [List.append_assoc, List.takeWhile_append_dropWhile]
      · intro h0
        rw [h0] at hrun
        exact hrun rfl
      · intro c hc
        exact List.mem_takeWhile_imp hc
  · rw [matchAt, if_neg hpre]
    simp only [Option.isSome_none, Bool.false_eq_true, false_iff]
    rintro ⟨tok, post, heq, hne, hall⟩
    exact hpre (List.isPrefixOf_iff_prefix.mpr
      ⟨tok ++ post, ((List.append_assoc lit tok post).symm).trans heq.symm⟩)

theorem matchAt_shape (lit keep cs ids : List Char) (h : matchAt lit keep cs = some ids) :
    ∃ run, ids = keep ++ run ∧ run ≠ [] ∧ ∀ c ∈ run, isIdChar c = true := by
  rw [matchAt] at h
  by_cases hpre : lit.isPrefixOf cs = true
  · rw [if_pos hpre] at h
    by_cases hrun : ((cs.drop lit.length).takeWhile isIdChar).isEmpty = true
    · rw [if_pos hrun] at h
      exact absurd h (by simp)
    · rw [if_neg hrun] at h
      refine ⟨(cs.drop lit.length).takeWhile isIdChar, (Option.some.inj h).symm, ?_, ?_⟩
      · intro h0
        rw [h0] at hrun
        exact hrun rfl
      · intro c hc
        exact List.mem_takeWhile_imp hc
  · rw [if_neg hpre] at h
    exact absurd h (by simp)

theorem scanMatch_isSome_iff (lit keep l : List Char) :
    (scanMatch lit keep l).isSome = true ↔
      ∃ t, t <:+ l ∧ (matchAt lit keep t).isSome = true := by
  induction l with
  | nil =>
    rw [scanMatch]
    constructor
    · intro h
      exact ⟨[], List.suffix_rfl, h⟩
    · rintro ⟨t, ht, hm⟩
      rw [List.suffix_nil] at ht
      subst ht
      exact hm
  | cons c cs ih =>
    rw [scanMatch]
    cases hm : matchAt lit keep (c :: cs) with
    | some r =>
      simp only [Option.isSome_some, true_iff]
      exact ⟨c :: cs, List.suffix_rfl, by rw [hm]; rfl⟩
    | none =>
      rw [ih]
      constructor
      · rintro ⟨t, ht, h⟩
        exact ⟨t, ht.trans (List.suffix_cons c cs), h⟩
      · rintro ⟨t, ht, h⟩
        rcases List.suffix_cons_iff.mp ht with h1 | h1
        · subst h1
          rw [hm] at h
          exact absurd h (by simp)
        · exact ⟨t, h1, h⟩

theorem scanMatch_shape (lit keep l ids : List Char) (h : scanMatch lit keep l = some ids) :
    ∃ run, ids = keep ++ run ∧ run ≠ [] ∧ ∀ c ∈ run, isIdChar c = true := by
  induction l with
  | nil => exact matchAt_shape lit keep [] ids h
  | cons c cs ih =>
    rw [scanMatch] at h
    cases hm : matchAt lit keep (c :: cs) with
    | some r =>
      simp only [hm] at h
      obtain rfl := Option.some.inj h
      exact matchAt_shape _ _ _ _ hm
    | none =>
      simp only [hm] at h
      exact ih h

theorem containsToken_iff_scan (lit keep : List Char) (s : String) :
    ContainsToken lit s ↔ (scanMatch lit keep s.toList).isSome = true := by
  rw [scanMatch_isSome_iff]
  constructor
  · rintro ⟨pre, tok, post, hdec, hne, hall⟩
    refine ⟨lit ++ tok ++ post, ⟨pre, by rw [hdec]; simp only [List.append_assoc]⟩, ?_⟩
    rw [matchAt_isSome_iff]
    exact ⟨tok, post, rfl, hne, hall⟩
  · rintro ⟨t, ⟨pre, hpre⟩, hm⟩
    rw [matchAt_isSome_iff] at hm
    obtain ⟨tok, post, ht, hne, hall⟩ := hm
    exact ⟨pre, tok, post, by rw [← hpre, ht]; simp only [List.append_assoc], hne, hall⟩

theorem string_mk_append (a b : List Char) :
    String.mk a ++ String.mk b = String.mk (a ++ b) := rfl

theorem string_mk_ne_empty (a : List Char) (h : a ≠ []) : String.mk a ≠ "" := by
  intro he
  exact h (by simpa using congrArg String.data he)

theorem scanMatch_none_of_not_contains (lit keep : List Char) (s : String)
    (h : ¬ ContainsToken lit s) : scanMatch lit keep s.toList = none :=
  Option.not_isSome_iff_eq_none.mp
    (fun hs => h ((containsToken_iff_scan lit keep s).mpr hs))

/-- Claim C1: the URL resolver tries the two recognized formats in order with
first match wins: a string containing `/presentation/d/e/2PACX-<token>`
(token nonempty over `[A-Za-z0-9_-]`) resolves to a published reference whose
id includes the `2PACX-` prefix; otherwise a string containing
`/presentation/d/<token>` resolves to a regular reference; any other string
resolves to null. -/
theorem extractPresentationId_formats (s : String) :
    (ContainsToken pubLit s →
      ∃ tok : String, extractPresentationId s = some ⟨"2PACX-" ++ tok, true⟩ ∧
        tok ≠ "" ∧ ∀ c ∈ tok.toList, isIdChar c = true) ∧
    (¬ ContainsToken pubLit s → ContainsToken regLit s →
      ∃ tok : String, extractPresentationId s = some ⟨tok, false⟩ ∧
        tok ≠ "" ∧ ∀ c ∈ tok.toList, isIdChar c = true) ∧
    (¬ ContainsToken pubLit s → ¬ ContainsToken regLit s →
      extractPresentationId s = none) := by
  refine ⟨?_, ?_, ?_⟩
  · intro h
    have hs := (containsToken_iff_scan pubLit pacxLit s).mp h
    obtain ⟨ids, hids⟩ := Option.isSome_iff_exists.mp hs
    obtain ⟨run, hrun, hne, hall⟩ := scanMatch_shape _ _ _ _ hids
    subst hrun
    refine ⟨String.mk run, ?_, string_mk_ne_empty run hne, hall⟩
    simp only [extractPresentationId, hids]
    have hmk : String.mk (pacxLit ++ run) = "2PACX-" ++ String.mk run := by
      rw [← string_mk_append]
      rfl
    rw [hmk]
  · intro hnp h
    have hpn := scanMatch_none_of_not_contains pubLit pacxLit s hnp
    have hs := (containsToken_iff_scan regLit [] s).mp h
    obtain ⟨ids, hids⟩ := Option.isSome_iff_exists.mp hs
    obtain ⟨run, hrun, hne, hall⟩ := scanMatch_shape _ _ _ _ hids
    rw [List.nil_append] at hrun
    subst hrun
    refine ⟨String.mk ids, ?_, string_mk_ne_empty ids hne, hall⟩
    simp only [extractPresentationId, hpn, hids]
  · intro hnp hnr
    have hpn := scanMatch_none_of_not_contains pubLit pacxLit s hnp
    have hrn := scanMatch_none_of_not_contains regLit [] s hnr
    simp only [extractPresentationId, hpn, hrn]

theorem extractPresentationId_formats_witness :
    extractPresentationId "https://example.com/not-a-slide" = none :=
  (extractPresentationId_formats "https://example.com/not-a-slide").2.2
    (fun h => absurd
      ((containsToken_iff_scan pubLit pacxLit "https://example.com/not-a-slide").mp h)
      (by decide))
    (fun h => absurd
      ((containsToken_iff_scan regLit [] "https://example.com/not-a-slide").mp h)
      (by decide))

/-- Claim C2: embed URL construction is a pure, deterministic function of the
resolved reference; a published reference yields
`https://docs.google.com/presentation/d/e/<ID>/embed?start=false&loop=false&delayms=3000`,
a regular one the same without the `/e` segment, and the concrete input
`https://docs.google.com/presentation/d/1AbC_23-xyz/edit` yields exactly the
stated embed URL. -/
theorem embedUrl_construction (url : String) (p : PresentationReference)
    (h : extractPresentationId url = some p) :
    (p.isPublished = true →
      embedUrl url = "https://docs.google.com/presentation/d/e/" ++ p.id
        ++ "/embed?start=false&loop=false&delayms=3000") ∧
    (p.isPublished = false →
      embedUrl url = "https://docs.google.com/presentation/d/" ++ p.id
        ++ "/embed?start=false&loop=false&delayms=3000") ∧
    (∀ url2 : String, extractPresentationId url2 = extractPresentationId url →
      embedUrl url2 = embedUrl url) ∧
    embedUrl "https://docs.google.com/presentation/d/1AbC_23-xyz/edit"
      = "https://docs.google.com/presentation/d/1AbC_23-xyz/embed?start=false&loop=false&delayms=3000" := by
  have hq : "/embed?" ++ fixedQuery = "/embed?start=false&loop=false&delayms=3000" := by
    decide
  refine ⟨?_, ?_, ?_, by decide⟩
  · intro hp
    simp only [embedUrl, h, embedUrlCore, hp, if_true]
    rw [String.append_assoc, hq]
  · intro hp
    simp only [embedUrl, h, embedUrlCore, hp, Bool.false_eq_true, if_false]
    rw [String.append_assoc, hq]
  · intro url2 h2
    simp only [embedUrl, h2]

theorem embedUrl_construction_witness :
    embedUrl "https://docs.google.com/presentation/d/e/2PACX-1vAbc-De_F2/pub?start=true"
      = "https://docs.google.com/presentation/d/e/" ++ "2PACX-1vAbc-De_F2"
        ++ "/embed?start=false&loop=false&delayms=3000" :=
  (embedUrl_construction "https://docs.google.com/presentation/d/e/2PACX-1vAbc-De_F2/pub?start=true"
    ⟨"2PACX-1vAbc-De_F2", true⟩ (by decide)).1 rfl

/-- Claim C9: whenever the resolver returns a non-null reference, the embed
URL starts with the fixed host `https://docs.google.com/`, regardless of the
input's host or scheme, since the input's origin is never inspected. -/
theorem embedUrl_fixed_host (url : String) (p : PresentationReference)
    (h : extractPresentationId url = some p) :
    "https://docs.google.com/".toList.isPrefixOf (embedUrl url).toList = true := by
  rw [List.isPrefixOf_iff_prefix]
  simp only [embedUrl, h, embedUrlCore]
  by_cases hp : p.isPublished = true
  · rw [if_pos hp]
    refine ⟨"presentation/d/e/".toList ++ p.id.toList ++ "/embed?".toList ++ fixedQuery.toList, ?_⟩
    have hsplit : "https://docs.google.com/presentation/d/e/".toList
        = "https://docs.google.com/".toList ++ "presentation/d/e/".toList := by decide
    simp only [String.toList, String.data_append, hsplit, List.append_assoc]
    rw [← List.append_assoc]
    congr 1
  · rw [if_neg hp]
    refine ⟨"presentation/d/".toList ++ p.id.toList ++ "/embed?".toList ++ fixedQuery.toList, ?_⟩
    have hsplit : "https://docs.google.com/presentation/d/".toList
        = "https://docs.google.com/".toList ++ "presentation/d/".toList := by decide
    simp only [String.toList, String.data_append, hsplit, List.append_assoc]
    rw [← List.append_assoc]
    congr 1

theorem embedUrl_fixed_host_witness :
    "https://docs.google.com/".toList.isPrefixOf
        (embedUrl "http://evil.example/presentation/d/abc/edit").toList = true :=
  embedUrl_fixed_host "http://evil.example/presentation/d/abc/edit"
    ⟨"abc", false⟩ (by decide)

theorem append_ne_empty_left (a b : String) (h : a ≠ "") : a ++ b ≠ "" := by
  intro he
  apply h
  have hd := congrArg String.data he
  rw [String.data_append] at hd
  have hnil : a.data = [] := (List.append_eq_nil.mp hd).1
  have : a = String.mk [] := by
    rw [← hnil]
  exact this

theorem embedUrlCore_ne_empty (p : PresentationReference) : embedUrlCore p ≠ "" := by
  unfold embedUrlCore
  by_cases hp : p.isPublished = true
  · rw [if_pos hp]
    exact append_ne_empty_left _ _
      (append_ne_empty_left _ _ (append_ne_empty_left _ _ (by decide)))
  · rw [if_neg hp]
    exact append_ne_empty_left _ _
      (append_ne_empty_left _ _ (append_ne_empty_left _ _ (by decide)))

/-- Claim C5: for every input URL, the embed URL is the empty string if and
only if the resolver returned null; when null, the component renders the
error placeholder with literal text `Invalid Google Slides URL` instead of a
frame, and the case is logged, never thrown. -/
theorem embedUrl_empty_iff_null (url : String) :
    (embedUrl url = "" ↔ extractPresentationId url = none) ∧
    (extractPresentationId url = none →
      render url = Rendering.placeholder "Invalid Google Slides URL" ∧
      embedUrlLogs url = ["Invalid Google Slides URL: " ++ url]) := by
  constructor
  · constructor
    · intro he
      cases hx : extractPresentationId url with
      | none => rfl
      | some p =>
        simp only [embedUrl, hx] at he
        exact absurd he (embedUrlCore_ne_empty p)
    · intro hn
      simp only [embedUrl, hn]
  · intro hn
    have he : embedUrl url = "" := by simp only [embedUrl, hn]
    constructor
    · rw [render, if_pos he]
    · simp only [embedUrlLogs, hn]

theorem embedUrl_empty_iff_null_witness :
    render "https://example.com/not-a-slide"
      = Rendering.placeholder "Invalid Google Slides URL" :=
  (((embedUrl_empty_iff_null "https://example.com/not-a-slide").2) (by decide)).1

/-- Claim C3 counterexample: starting from a page whose body already has a
nonempty `overflow` inline style, entering and then exiting simulated
fullscreen does not restore the pre-entry style (exit writes empty strings),
so entry followed by exit is not the identity on page style. -/
theorem customFullscreen_roundtrip_counterexample :
    ((P0.toggleCustomFullscreen
        (P0.toggleCustomFullscreen
          ⟨true, false, false, false, ⟨"scroll", "", "", ""⟩⟩).1).1).bodyStyle
      ≠ (⟨"scroll", "", "", ""⟩ : P0.BodyStyle) := by decide

/-- Claim C3 (amended): when the pre-entry style properties hold their
initial empty values, entering simulated fullscreen and then exiting restores
the state exactly; in general, exiting always resets all four style
properties (overflow, position, width, height) to the empty string rather
than to arbitrary pre-entry values. -/
theorem customFullscreen_roundtrip (s : P0.State)
    (h1 : s.containerPresent = true) (h2 : s.isCustomFullscreen = false)
    (h3 : s.bodyStyle = P0.blankStyle) :
    (P0.toggleCustomFullscreen (P0.toggleCustomFullscreen s).1).1 = s ∧
    ∀ u : P0.State, u.containerPresent = true → u.isCustomFullscreen = true →
      (P0.toggleCustomFullscreen u).1.bodyStyle = P0.blankStyle := by
  constructor
  · obtain ⟨cp, ip, cf, sf, bs⟩ := s
    simp only at h1 h2 h3
    subst h1
    subst h2
    subst h3
    simp [P0.toggleCustomFullscreen]
  · intro u hu1 hu2
    obtain ⟨cp, ip, cf, sf, bs⟩ := u
    simp only at hu1 hu2
    subst hu1
    subst hu2
    simp [P0.toggleCustomFullscreen]

theorem customFullscreen_roundtrip_witness :
    (P0.toggleCustomFullscreen
        (P0.toggleCustomFullscreen ⟨true, true, false, false, P0.blankStyle⟩).1).1
      = ⟨true, true, false, false, P0.blankStyle⟩ :=
  (customFullscreen_roundtrip ⟨true, true, false, false, P0.blankStyle⟩ rfl rfl rfl).1

/-- Claim C4: in every state of the fullscreen controller (hence in every
reachable one), the derived `isFullscreen` value is true if and only if at
least one of the two internal flags (standard / custom) is true, in both
revisions that define it. -/
theorem isFullscreen_or_flags (s : P0.State) (t : P1.State) :
    (P0.isFullscreen s = true ↔
      (s.isStandardFullscreen = true ∨ s.isCustomFullscreen = true)) ∧
    (P1.isFullscreen t = true ↔
      (t.isStandardFullscreen = true ∨ t.isCustomFullscreen = true)) :=
  ⟨iff_of_eq (Bool.or_eq_true _ _), iff_of_eq (Bool.or_eq_true _ _)⟩

/-- Claim C6: the toggle control's accessible label is `Exit fullscreen`
exactly when `isFullscreen` is true and `Enter fullscreen` otherwise; in
particular, when a platform fullscreen request is rejected, simulated
fullscreen becomes active and the label becomes `Exit fullscreen`. -/
theorem toggleLabel_reflects (env : P0.Env) (s : P0.State)
    (h1 : s.containerPresent = true) (h2 : s.isCustomFullscreen = false)
    (h3 : env.fullscreenElement = false) (h4 : env.requestFullscreenSupported = true)
    (h5 : env.requestFullscreenSucceeds = false) :
    (∀ u : P0.State, P0.toggleLabel u = "Exit fullscreen" ↔ P0.isFullscreen u = true) ∧
    ((P0.toggleFullscreen env s).1.isCustomFullscreen = true ∧
      P0.toggleLabel (P0.toggleFullscreen env s).1 = "Exit fullscreen") := by
  constructor
  · intro u
    rw [P0.toggleLabel]
    cases hf : P0.isFullscreen u
    · rw [if_neg (by simp [hf])]
      simp
    · rw [if_pos rfl]
      simp
  · have hstate : (P0.toggleFullscreen env s).1
        = { s with isCustomFullscreen := true, bodyStyle := P0.enterStyle } := by
      simp [P0.toggleFullscreen, P0.toggleCustomFullscreen, h1, h2, h3, h4, h5]
    constructor
    · rw [hstate]
    · rw [hstate, P0.toggleLabel, if_pos (by simp [P0.isFullscreen])]

theorem toggleLabel_reflects_witness :
    (P0.toggleFullscreen ⟨false, true, false⟩
        ⟨true, false, false, false, P0.blankStyle⟩).1.isCustomFullscreen = true ∧
    P0.toggleLabel (P0.toggleFullscreen ⟨false, true, false⟩
        ⟨true, false, false, false, P0.blankStyle⟩).1 = "Exit fullscreen" :=
  (toggleLabel_reflects ⟨false, true, false⟩ ⟨true, false, false, false, P0.blankStyle⟩
    rfl rfl rfl rfl rfl).2

/-- Claim C7: if the container element is missing at toggle time, both the
main toggle action and the custom-fullscreen toggle are no-ops: the state is
unchanged and no browser effect (in particular no fullscreen request, no
style mutation) is issued. -/
theorem toggle_noop_without_container (env : P0.Env) (s : P0.State)
    (h : s.containerPresent = false) :
    P0.toggleFullscreen env s = (s, []) ∧ P0.toggleCustomFullscreen s = (s, []) := by
  constructor
  · simp [P0.toggleFullscreen, h]
  · simp [P0.toggleCustomFullscreen, h]

theorem toggle_noop_without_container_witness :
    P0.toggleFullscreen ⟨true, true, true⟩ ⟨false, true, true, true, P0.blankStyle⟩
        = (⟨false, true, true, true, P0.blankStyle⟩, []) ∧
    P0.toggleCustomFullscreen ⟨false, true, true, true, P0.blankStyle⟩
        = (⟨false, true, true, true, P0.blankStyle⟩, []) :=
  toggle_noop_without_container ⟨true, true, true⟩ ⟨false, true, true, true, P0.blankStyle⟩ rfl

/-- Claim C8: when the browser reports an active platform fullscreen element
at toggle time, the toggle action only requests exit from the platform API
and returns, leaving the whole state (both internal flags included)
unchanged; the standard flag is written only by the fullscreen-change event
handler, which sets it to the browser-reported truth. -/
theorem toggle_platform_exit (env env2 : P0.Env) (s s2 : P0.State)
    (h1 : s.containerPresent = true) (h2 : env.fullscreenElement = true) :
    P0.toggleFullscreen env s = (s, [Effect.exitFullscreenRequest]) ∧
    P0.handleFullscreenChange env2 s2
      = { s2 with isStandardFullscreen := env2.fullscreenElement } := by
  constructor
  · simp [P0.toggleFullscreen, h1, h2]
  · rfl

theorem toggle_platform_exit_witness :
    P0.toggleFullscreen ⟨true, true, true⟩ ⟨true, false, false, false, P0.blankStyle⟩
        = (⟨true, false, false, false, P0.blankStyle⟩, [Effect.exitFullscreenRequest]) ∧
    P0.handleFullscreenChange ⟨false, false, false⟩ ⟨true, false, true, true, P0.blankStyle⟩
        = ⟨true, false, true, false, P0.blankStyle⟩ :=
  toggle_platform_exit ⟨true, true, true⟩ ⟨false, false, false⟩
    ⟨true, false, false, false, P0.blankStyle⟩ ⟨true, false, true, true, P0.blankStyle⟩ rfl rfl

/-- Claim C10: the simulated-fullscreen toggle is an involution on the
custom-fullscreen flag: whenever the container element is present, invoking
`toggleCustomFullscreen` twice returns the flag to its original value, in
both the middle revision and the `GoogleSlides.vue` revision. -/
theorem toggleCustomFullscreen_involutive (s : P1.State) (t : GS.State)
    (hs : s.containerPresent = true) (ht : t.containerPresent = true) :
    (P1.toggleCustomFullscreen (P1.toggleCustomFullscreen s).1).1.isCustomFullscreen
        = s.isCustomFullscreen ∧
    (GS.toggleCustomFullscreen (GS.toggleCustomFullscreen t)).isCustomFullscreen
        = t.isCustomFullscreen := by
  constructor
  · obtain ⟨cp, ip, cf, sf, ov⟩ := s
    simp only at hs
    subst hs
    cases cf <;> simp [P1.toggleCustomFullscreen]
  · obtain ⟨cp, cf, ov⟩ := t
    simp only at ht
    subst ht
    cases cf <;> simp [GS.toggleCustomFullscreen]

theorem toggleCustomFullscreen_involutive_witness :
    (P1.toggleCustomFullscreen
        (P1.toggleCustomFullscreen ⟨true, true, false, false, ""⟩).1).1.isCustomFullscreen
        = false ∧
    (GS.toggleCustomFullscreen
        (GS.toggleCustomFullscreen ⟨true, true, "hidden"⟩)).isCustomFullscreen = true :=
  toggleCustomFullscreen_involutive ⟨true, true, false, false, ""⟩ ⟨true, true, "hidden"⟩ rfl rfl
